import Mathlib

/-!
Verification of the hey-py conversation-cache and streaming layer.

The definitions below are a shallow embedding of src/hey/cache.py and
src/hey/api.py.  Timestamps are modelled as integers (the code only
compares differences of datetimes against a fixed delta), file contents
as explicit data, and file-system or JSON failures as explicit outcome
values.  Python dicts of headers are modelled as association lists with
Python's insertion-order update semantics.  The json.loads call of the
stream loop is an external library function; it is modelled as a
parameter returning the decoded object (the fields the loop reads) when
the payload is a JSON object and none when decoding fails.
-/

namespace Hey

/-- ChatMessage from src/hey/models.py: a role and a content string. -/
structure ChatMessage where
  role : String
  content : String
deriving DecidableEq, Repr

/-- CachedMessage from src/hey/cache.py: a timestamp paired with a message. -/
structure CachedMessage where
  ts : Int
  message : ChatMessage
deriving DecidableEq, Repr

/-- The JSON-object form written by CachedMessage.to_dict. -/
structure MsgDict where
  ts : Int
  role : String
  content : String
deriving DecidableEq, Repr

/-- CachedMessage.to_dict from src/hey/cache.py. -/
def CachedMessage.to_dict (m : CachedMessage) : MsgDict :=
  { ts := m.ts, role := m.message.role, content := m.message.content }

/-- CachedMessage.from_dict from src/hey/cache.py. -/
def CachedMessage.from_dict (d : MsgDict) : CachedMessage :=
  { ts := d.ts, message := { role := d.role, content := d.content } }

/-- The in-memory state of a Cache object: the fields set in Cache.__init__
(self._messages, self._expiry_delta, self._max_size, self._vqd_hash). -/
structure CacheState where
  messages : List CachedMessage
  expiry_delta : Int
  max_size : Nat
  vqd_hash : Option String
deriving DecidableEq, Repr

/-- Python list slice l[-k:] used in Cache.get_messages: the last k elements
for k positive, the whole list for k = 0. -/
def last_window {α : Type} (k : Nat) (l : List α) : List α :=
  if k = 0 then l else l.drop (l.length - k)

/-- Cache.get_messages from src/hey/cache.py: the last max_size stored
entries whose age (now minus ts) is at most the expiry delta, projected to
their messages, in stored order.  It reads the state without mutating it. -/
def CacheState.get_messages (c : CacheState) (now : Int) : List ChatMessage :=
  ((last_window c.max_size c.messages).filter
    (fun m => now - m.ts ≤ c.expiry_delta)).map CachedMessage.message

/-- The cached entries that Cache.get_messages keeps (before projecting to
the message component): the fresh entries of the trailing window. -/
def fresh_kept (c : CacheState) (now : Int) : List CachedMessage :=
  (last_window c.max_size c.messages).filter
    (fun m => now - m.ts ≤ c.expiry_delta)

/-- Cache.clear from src/hey/cache.py: empties self._messages only. -/
def CacheState.clear (c : CacheState) : CacheState :=
  { c with messages := [] }

/-- Cache.add_message from src/hey/cache.py: appends a CachedMessage built
from the current time and the given message. -/
def CacheState.add_message (c : CacheState) (now : Int) (m : ChatMessage) : CacheState :=
  { c with messages := c.messages ++ [{ ts := now, message := m }] }

/-- The pair of artifacts Cache.save writes when both writes succeed:
the full message list in dict form, and the vqd hash (empty string when
none is cached). -/
structure SavedFiles where
  msgs : List MsgDict
  vqd : String
deriving DecidableEq, Repr

/-- The data Cache.save writes (the success case of both writes). -/
def save_files (c : CacheState) : SavedFiles :=
  { msgs := c.messages.map CachedMessage.to_dict, vqd := c.vqd_hash.getD ("") }

/-- A fresh Cache instance whose Cache.load read both files successfully:
messages parsed by from_dict in file order, vqd hash read and stripped. -/
def load_fresh (files : SavedFiles) (max_size : Nat) (expiry_delta : Int) : CacheState :=
  { messages := files.msgs.map CachedMessage.from_dict
    expiry_delta := expiry_delta
    max_size := max_size
    vqd_hash := some files.vqd.trim }

/-- Outcome of reading one cache file in Cache.load: the file may be absent
(FileNotFoundError), its open or whole-file parse may fail with some other
exception, or it yields a value. -/
inductive FileRead (α : Type) where
  | missing
  | failed (err : String)
  | ok (val : α)
deriving DecidableEq, Repr

/-- One element of the JSON array in the messages file, as seen by the loop
in Cache.load: either a dict from which CachedMessage.from_dict succeeds, or
an entry on which from_dict raises (missing key or bad timestamp string). -/
inductive RawEntry where
  | good (d : MsgDict)
  | bad (err : String)
deriving DecidableEq, Repr

/-- The for loop of Cache.load over the parsed JSON array: appends parsed
messages to the accumulator until the first entry on which from_dict raises;
returns the grown list and the error message of that entry, if any. -/
def append_parsed : List CachedMessage → List RawEntry → List CachedMessage × Option String
  | acc, [] => (acc, none)
  | acc, .good d :: rest => append_parsed (acc ++ [CachedMessage.from_dict d]) rest
  | acc, .bad e :: _ => (acc, some e)

/-- The messages appended by one run of the Cache.load loop starting from an
empty accumulator: the parses preceding the first failing entry. -/
def parsed_until_err : List RawEntry → List CachedMessage
  | [] => []
  | .good d :: rest => CachedMessage.from_dict d :: parsed_until_err rest
  | .bad _ :: _ => []

/-- The first try block of Cache.load (the messages file): a missing file is
passed over silently, any other failure prints a warning, a parsed array is
folded by the loop with a warning if an entry fails mid-way. -/
def load_messages_file (c : CacheState) (mf : FileRead (List RawEntry)) :
    CacheState × List String :=
  match mf with
  | .missing => (c, [])
  | .failed e => (c, ["Warning: Failed to load message cache: " ++ e])
  | .ok entries =>
      let r := append_parsed c.messages entries
      ({ c with messages := r.1 },
        match r.2 with
        | none => []
        | some e => ["Warning: Failed to load message cache: " ++ e])

/-- The second try block of Cache.load (the vqd file): a missing file is
passed over silently, any other failure prints a warning, a read succeeds by
storing the stripped file content. -/
def load_vqd_file (c : CacheState) (vf : FileRead String) :
    CacheState × List String :=
  match vf with
  | .missing => (c, [])
  | .failed e => (c, ["Warning: Failed to load VQD hash: " ++ e])
  | .ok s => ({ c with vqd_hash := some s.trim }, [])

/-- Cache.load from src/hey/cache.py: both try blocks in order, collecting
printed warnings.  The function is total: no failure escapes it. -/
def load (c : CacheState) (mf : FileRead (List RawEntry)) (vf : FileRead String) :
    CacheState × List String :=
  let (c1, w1) := load_messages_file c mf
  let (c2, w2) := load_vqd_file c1 vf
  (c2, w1 ++ w2)

/-- The messages that Cache.load adds to the window for a given messages-file
outcome: nothing unless the file parsed as an array, in which case the
entries preceding the first failing one. -/
def loaded_msgs : FileRead (List RawEntry) → List CachedMessage
  | .ok entries => parsed_until_err entries
  | _ => []

/-- The warnings Cache.load prints for the messages file. -/
def msgs_file_warnings : FileRead (List RawEntry) → List String
  | .missing => []
  | .failed e => ["Warning: Failed to load message cache: " ++ e]
  | .ok entries =>
      match (append_parsed [] entries).2 with
      | none => []
      | some e => ["Warning: Failed to load message cache: " ++ e]

/-- The warnings Cache.load prints for the vqd file. -/
def vqd_file_warnings : FileRead String → List String
  | .missing => []
  | .failed e => ["Warning: Failed to load VQD hash: " ++ e]
  | .ok _ => []

/-- Outcome of one file-system operation inside Cache.save. -/
inductive FsResult where
  | ok
  | err (e : String)
deriving DecidableEq, Repr

/-- Result of Cache.save: either an exception escapes it, or it finishes,
having written the message file and the vqd file (none for a failed write)
and printed the collected warnings. -/
inductive SaveResult where
  | raised (e : String)
  | done (written_msgs : Option (List MsgDict)) (written_vqd : Option String)
      (warnings : List String)
deriving DecidableEq, Repr

/-- Cache.save from src/hey/cache.py.  The mkdir call on the cache directory
stands before both try blocks, so its failure propagates; each of the two
write blocks swallows its own failure with a printed warning. -/
def save (c : CacheState) (mkdir_r write_msgs_r write_vqd_r : FsResult) : SaveResult :=
  match mkdir_r with
  | .err e => .raised e
  | .ok =>
      let m1 : Option (List MsgDict) × List String :=
        match write_msgs_r with
        | .ok => (some (c.messages.map CachedMessage.to_dict), [])
        | .err e => (none, ["Warning: Failed to save message cache: " ++ e])
      let m2 : Option String × List String :=
        match write_vqd_r with
        | .ok => (some (c.vqd_hash.getD ("")), [])
        | .err e => (none, ["Warning: Failed to save VQD hash: " ++ e])
      .done m1.1 m2.1 (m1.2 ++ m2.2)

/-- Cache.__exit__ from src/hey/cache.py: calls save unconditionally, with
no test of the exception information, and returns None (so an in-body
exception is not suppressed). -/
def exit_handler (c : CacheState) (_exc : Option String)
    (mkdir_r write_msgs_r write_vqd_r : FsResult) : SaveResult :=
  save c mkdir_r write_msgs_r write_vqd_r

/-- The messages artifact save writes for a given write outcome. -/
def written_msgs_for (c : CacheState) : FsResult → Option (List MsgDict)
  | .ok => some (c.messages.map CachedMessage.to_dict)
  | .err _ => none

/-- The vqd artifact save writes for a given write outcome. -/
def written_vqd_for (c : CacheState) : FsResult → Option String
  | .ok => some (c.vqd_hash.getD (""))
  | .err _ => none

/-- The warning save prints for the messages write. -/
def msgs_save_warnings : FsResult → List String
  | .ok => []
  | .err e => ["Warning: Failed to save message cache: " ++ e]

/-- The warning save prints for the vqd write. -/
def vqd_save_warnings : FsResult → List String
  | .ok => []
  | .err e => ["Warning: Failed to save VQD hash: " ++ e]

/-- The fields of a decoded stream event that the loop in DuckAI.get_response
reads: data.get("action"), the "message" entry if present, data.get("status")
and data.get("type").  A missing field is none; a present-but-empty message
is some of the empty string. -/
structure EventData where
  action : Option String
  message : Option String
  status : Option Int
  err_type : Option String
deriving DecidableEq, Repr

/-- The mutable locals of the stream loop in DuckAI.get_response:
chunk_count, current_response, complete_response, and the last value bound
to the data variable (none before the first successful parse). -/
structure LoopState where
  chunk_count : Nat
  current_response : String
  complete_response : String
  last_data : Option EventData
deriving DecidableEq, Repr

/-- The loop locals before the first line is read. -/
def init_loop_state : LoopState :=
  { chunk_count := 0, current_response := "", complete_response := "", last_data := none }

/-- One decoded unit of the streamed response, the ChatChunk and
ErrorChatChunk shapes of src/hey/api.py.  The error form exists in the
source as a dataclass but the stream loop never surfaces one. -/
inductive Chunk where
  | success (message : String)
  | error (status : Option Int) (err_type : Option String)
deriving DecidableEq, Repr

/-- Result of processing one line of the stream: either the loop continues
with possibly one success chunk shown, or sys.exit tears the process down
with the given exit code after printing the status and error type. -/
inductive LineResult where
  | next (chunk : Option String) (st : LoopState)
  | exit (code : Nat) (status : Option Int) (err_type : Option String)
deriving DecidableEq, Repr

/-- Result of running the stream loop to the end of its input. -/
inductive RunOut where
  | ok (st : LoopState)
  | exited (code : Nat) (status : Option Int) (err_type : Option String)
deriving DecidableEq, Repr

/-- Python line.removeprefix of the fixed event-stream marker in
DuckAI.get_response: drop the six marker characters when they lead the
line, return the line unchanged otherwise. -/
def strip_data (line : String) : String :=
  if line.take 6 = "data: " then line.drop 6 else line

/-- One iteration of the stream loop of DuckAI.get_response (src/hey/api.py
lines 164-188): skip a falsy line; parse the line with its marker stripped,
skipping it on a decode error; on an error action print the diagnostic and
exit the process with code 1; otherwise rebind data and, when a message
field is present, count the chunk and append the text to both running
accumulators. -/
def line_step (parse : String → Option EventData) (st : LoopState)
    (line : String) : LineResult :=
  if line = "" then .next none st
  else
    match parse (strip_data line) with
    | none => .next none st
    | some data =>
        if data.action = some ("error") then
          .exit 1 data.status data.err_type
        else
          match data.message with
          | some m => .next (some m)
              { chunk_count := st.chunk_count + 1
                current_response := st.current_response ++ m
                complete_response := st.complete_response ++ m
                last_data := some data }
          | none => .next none { st with last_data := some data }

/-- The whole stream loop: iterate line_step over the lines, collecting the
success chunks in order, stopping at a process exit. -/
def run_stream (parse : String → Option EventData) (st : LoopState) :
    List String → List Chunk × RunOut
  | [] => ([], .ok st)
  | line :: rest =>
      match line_step parse st line with
      | .exit code s t => ([], .exited code s t)
      | .next none st2 => run_stream parse st2 rest
      | .next (some m) st2 =>
          let r := run_stream parse st2 rest
          (Chunk.success m :: r.1, r.2)

/-- The boolean guard not data.get("action") == "error" of the commit line
of DuckAI.get_response, read on the last value of the data variable. -/
def last_action_ok (st : LoopState) : Bool :=
  match st.last_data with
  | some d => !(d.action == some ("error"))
  | none => true

/-- The content the user turn gets in DuckAI.get_response: the configured
prompt (when truthy) and a separator in front of the query. -/
def prompt_content (prompt : Option String) (query : String) : String :=
  match prompt with
  | some p => if p = "" then query else p ++ ": " ++ query
  | none => query

/-- Result of DuckAI.get_response on a given stream: either the loop ran to
the end, with the shown chunks and the cache as left behind, or the process
exited with code 1 on an error action, with the cache as it stood then. -/
inductive RespResult where
  | ok (chunks : List Chunk) (cache : CacheState)
  | exited (code : Nat) (status : Option Int) (err_type : Option String)
      (cache : CacheState)
deriving DecidableEq, Repr

/-- DuckAI.get_response from src/hey/api.py, over the cache and stream: the
user message (prompt-prefixed query) is appended to the cache first; the
stream loop runs; if it finishes and complete_response is truthy and the
last data value has no error action, one further message of role user with
the marker text in front of the accumulated reply is appended. -/
def get_response (prompt : Option String) (query : String)
    (parse : String → Option EventData) (lines : List String)
    (now : Int) (c : CacheState) : RespResult :=
  let c1 := c.add_message now { role := "user", content := prompt_content prompt query }
  match run_stream parse init_loop_state lines with
  | (chunks, .ok st) =>
      if st.complete_response ≠ "" ∧ last_action_ok st = true then
        .ok chunks (c1.add_message now
          { role := "user", content := "your answer: " ++ st.complete_response })
      else
        .ok chunks c1
  | (_, .exited code s t) => .exited code s t c1

/-- Lookup in an association-list model of a Python dict. -/
def hfind : List (String × String) → String → Option String
  | [], _ => none
  | (k, v) :: rest, key => if k = key then some v else hfind rest key

/-- Python dict.update on insertion-ordered association lists: existing keys
keep their position and take the new value, new keys are appended in the
order of the update list. -/
def headers_update (base upd : List (String × String)) : List (String × String) :=
  base.map (fun kv =>
    match hfind upd kv.1 with
    | some v => (kv.1, v)
    | none => kv)
  ++ upd.filter (fun kv => (hfind base kv.1).isNone)

/-- DuckAI._get_common_headers from src/hey/api.py. -/
def common_headers : List (String × String) :=
  [("Host", "duckduckgo.com"),
   ("Accept", "text/event-stream"),
   ("User-Agent", "Mozilla/5.0 (X11; Linux x86_64; rv:109.0) Gecko/20100101 Firefox/115.0"),
   ("Accept-Language", "en-US,en;q=0.5"),
   ("Accept-Encoding", "gzip, deflate, br"),
   ("DNT", "1"),
   ("Connection", "keep-alive"),
   ("Cookie", "ax=v309-3"),
   ("Sec-Fetch-Dest", "empty"),
   ("Sec-Fetch-Mode", "cors"),
   ("Sec-Fetch-Site", "same-origin"),
   ("TE", "trailers")]

/-- The header update of the chat request in DuckAI.get_response (lines
119-132 of src/hey/api.py): the gating token goes out in x-vqd-4, while the
x-vqd-hash-1 header is the literal string initial; the hash component of
the vqd pair is not used. -/
def chat_header_update (vqd : String × String) : List (String × String) :=
  [("Content-Type", "application/json"),
   ("x-vqd-4", vqd.1),
   ("x-vqd-hash-1", "initial"),
   ("Accept", "text/event-stream"),
   ("Cache-Control", "no-cache"),
   ("Pragma", "no-cache"),
   ("Referer", "https://duckduckgo.com/?q=duckduckgo+ai+chat&ia=chat"),
   ("Sec-Fetch-Dest", "empty"),
   ("Sec-Fetch-Mode", "cors"),
   ("Sec-Fetch-Site", "same-origin"),
   ("Origin", "https://duckduckgo.com")]

/-- The full header dict sent with every chat request. -/
def chat_headers (vqd : String × String) : List (String × String) :=
  headers_update common_headers (chat_header_update vqd)

/-- Concrete decoded events used to instantiate the stream theorems. -/
def ev_hi : EventData :=
  { action := some ("success"), message := some ("Hi"), status := none, err_type := none }

/-- A second success event, continuing the reply text. -/
def ev_there : EventData :=
  { action := some ("success"), message := some (" there"), status := none, err_type := none }

/-- An error event as in the spec example: status 429, rate limited. -/
def ev_err : EventData :=
  { action := some ("error"), message := none, status := some 429,
    err_type := some ("rate_limited") }

/-- An event whose action is not success but which carries a message. -/
def ev_odd : EventData :=
  { action := some ("proceeding"), message := some ("x"), status := none, err_type := none }

/-- A success event whose message is present but empty. -/
def ev_empty : EventData :=
  { action := some ("success"), message := some (""), status := none, err_type := none }

/-- A concrete decode table standing for json.loads on the payloads used in
the witnesses: five recognised payload strings, everything else malformed. -/
def parse_fixture (s : String) : Option EventData :=
  if s = "s1" then some ev_hi
  else if s = "s2" then some ev_there
  else if s = "e1" then some ev_err
  else if s = "a1" then some ev_odd
  else if s = "m0" then some ev_empty
  else none

/-- An empty cache with the default limits of Cache.__init__. -/
def cache0 : CacheState :=
  { messages := [], expiry_delta := 24, max_size := 10, vqd_hash := none }

theorem from_dict_to_dict (m : CachedMessage) :
    CachedMessage.from_dict (CachedMessage.to_dict m) = m := by
  cases m with
  | mk ts msg => cases msg; rfl

theorem last_window_length_le {α : Type} (k : Nat) (l : List α) (hk : 0 < k) :
    (last_window k l).length ≤ k := by
  unfold last_window
  rw [if_neg (Nat.pos_iff_ne_zero.mp hk)]
  rw [List.length_drop]
  omega

theorem last_window_of_short {α : Type} (k : Nat) (l : List α)
    (h : l.length ≤ k) : last_window k l = l := by
  unfold last_window
  by_cases hk : k = 0
  · rw [if_pos hk]
  · rw [if_neg hk]
    have : l.length - k = 0 := by omega
    rw [this, List.drop_zero]

theorem last_window_sublist {α : Type} (k : Nat) (l : List α) :
    List.Sublist (last_window k l) l := by
  unfold last_window
  by_cases hk : k = 0
  · rw [if_pos hk]
  · rw [if_neg hk]
    exact List.drop_sublist _ _

theorem append_parsed_eq (es : List RawEntry) (acc : List CachedMessage) :
    append_parsed acc es = (acc ++ parsed_until_err es, (append_parsed [] es).2) := by
  induction es generalizing acc with
  | nil => simp [append_parsed, parsed_until_err]
  | cons e rest ih =>
      cases e with
      | good d =>
          rw [show append_parsed acc (.good d :: rest)
                = append_parsed (acc ++ [CachedMessage.from_dict d]) rest from rfl]
          rw [ih (acc ++ [CachedMessage.from_dict d])]
          rw [show append_parsed [] (.good d :: rest)
                = append_parsed [CachedMessage.from_dict d] rest from rfl]
          rw [ih [CachedMessage.from_dict d]]
          simp [parsed_until_err]
      | bad e => simp [append_parsed, parsed_until_err]

/-- C1: for a conversation window of at most max_size turns all of whose ages
are within the expiry delta, get_messages returns exactly those turns in
insertion order; in general the result is the projection of the fresh entries
of the trailing window, every kept entry is fresh, kept entries come from the
stored list (which get_messages does not modify), any stale entry is excluded
from the kept entries, and the result never holds more than max_size turns. -/
theorem c1_get_messages (c : CacheState) (now : Int) (hpos : 0 < c.max_size) :
    ((∀ m ∈ c.messages, now - m.ts ≤ c.expiry_delta) →
      c.messages.length ≤ c.max_size →
      c.get_messages now = c.messages.map CachedMessage.message)
  ∧ c.get_messages now = (fresh_kept c now).map CachedMessage.message
  ∧ (∀ m ∈ fresh_kept c now, now - m.ts ≤ c.expiry_delta)
  ∧ List.Sublist (fresh_kept c now) c.messages
  ∧ (∀ m, c.expiry_delta < now - m.ts → m ∉ fresh_kept c now)
  ∧ (c.get_messages now).length ≤ c.max_size := by
  refine ⟨?_, rfl, ?_, ?_, ?_, ?_⟩
  · intro hfresh hlen
    unfold CacheState.get_messages
    rw [last_window_of_short _ _ hlen]
    congr 1
    apply List.filter_eq_self.mpr
    intro m hm
    exact decide_eq_true (hfresh m hm)
  · intro m hm
    have := List.of_mem_filter hm
    exact of_decide_eq_true this
  · exact List.Sublist.trans (List.filter_sublist _) (last_window_sublist _ _)
  · intro m hstale hmem
    have := List.of_mem_filter hmem
    have hfresh := of_decide_eq_true this
    omega
  · unfold CacheState.get_messages
    rw [List.length_map]
    exact Nat.le_trans (List.Sublist.length_le (List.filter_sublist _))
      (last_window_length_le _ _ hpos)

/-- Witness for c1_get_messages at a concrete cache: two fresh turns and the
default limits give back exactly the two stored messages in order. -/
theorem c1_get_messages_witness :
    (CacheState.mk
      [⟨10, ⟨"user", "hi"⟩⟩, ⟨20, ⟨"user", "your answer: hello"⟩⟩]
      24 10 none).get_messages 30 =
      [⟨"user", "hi"⟩, ⟨"user", "your answer: hello"⟩] := by
  have h := c1_get_messages
    (CacheState.mk
      [⟨10, ⟨"user", "hi"⟩⟩, ⟨20, ⟨"user", "your answer: hello"⟩⟩]
      24 10 none) 30 (by decide)
  exact h.1 (by decide) (by decide)

/-- C6: the save/load round trip: a fresh Cache instance that loads the files
written by save reproduces the stored turn sequence exactly (same length and,
position by position, the same role, content and timestamp, in order). -/
theorem c6_roundtrip (c : CacheState) (k : Nat) (e : Int) :
    (load_fresh (save_files c) k e).messages = c.messages := by
  unfold load_fresh save_files
  simp only [List.map_map]
  have : CachedMessage.from_dict ∘ CachedMessage.to_dict = id := by
    funext m
    exact from_dict_to_dict m
  rw [this, List.map_id]

/-- C9: clear empties the window, so a subsequent get_messages returns zero
entries, while the cached vqd hash field is left unchanged. -/
theorem c9_clear (c : CacheState) (now : Int) :
    c.clear.get_messages now = [] ∧ c.clear.vqd_hash = c.vqd_hash := by
  constructor
  · unfold CacheState.get_messages CacheState.clear last_window
    by_cases hk : c.max_size = 0 <;> simp [hk]
  · rfl

/-- C7 counterexample: a messages file whose JSON array holds one parsable
entry followed by one on which from_dict raises.  load swallows the failure
with a warning, but the cache proceeds with the one parsed turn in its
window, not with an empty window as the claim states. -/
theorem c7_load_counterexample :
    (load cache0
      (FileRead.ok [RawEntry.good ⟨5, "user", "hello"⟩, RawEntry.bad ("KeyError")])
      FileRead.missing).1.messages = [⟨5, ⟨"user", "hello"⟩⟩]
  ∧ (load cache0
      (FileRead.ok [RawEntry.good ⟨5, "user", "hello"⟩, RawEntry.bad ("KeyError")])
      FileRead.missing).2 = ["Warning: Failed to load message cache: KeyError"]
  ∧ (load cache0
      (FileRead.ok [RawEntry.good ⟨5, "user", "hello"⟩, RawEntry.bad ("KeyError")])
      FileRead.missing).1.messages ≠ [] := by
  refine ⟨rfl, rfl, by decide⟩

/-- C7 amended: load is total — every read or parse failure of either file
yields a state and printed warnings, never an escaping exception; a missing
file is skipped silently; and the window ends up holding the previously held
turns followed by exactly the entries parsed before the first failure (so it
is empty after a whole-file failure only when it was empty before). -/
theorem c7_load_total (c : CacheState) (mf : FileRead (List RawEntry))
    (vf : FileRead String) :
    (load c mf vf).1.messages = c.messages ++ loaded_msgs mf
  ∧ (load c mf vf).2 = msgs_file_warnings mf ++ vqd_file_warnings vf
  ∧ (load c mf vf).1.max_size = c.max_size
  ∧ (load c mf vf).1.expiry_delta = c.expiry_delta := by
  cases mf with
  | missing =>
      cases vf <;>
        simp [load, load_messages_file, load_vqd_file, loaded_msgs,
          msgs_file_warnings, vqd_file_warnings]
  | failed e =>
      cases vf <;>
        simp [load, load_messages_file, load_vqd_file, loaded_msgs,
          msgs_file_warnings, vqd_file_warnings]
  | ok es =>
      have h := append_parsed_eq es c.messages
      cases vf <;>
        cases h2 : (append_parsed [] es).2 <;>
          simp [load, load_messages_file, load_vqd_file, loaded_msgs,
            msgs_file_warnings, vqd_file_warnings, h, h2]

/-- C10 counterexample: when creating the cache directory fails, save raises
(the mkdir call stands before both try blocks), refuting that save never
raises on file-system failures. -/
theorem c10_save_counterexample :
    save cache0 (FsResult.err ("Permission denied")) FsResult.ok FsResult.ok
      = SaveResult.raised ("Permission denied") := rfl

/-- C10 amended: exiting the context manager invokes save unconditionally,
whatever the in-body exception information is; once the cache directory is
created, save finishes for every combination of write outcomes, swallowing
write failures as printed warnings; with everything succeeding it writes the
full window and the current proof string; and a directory-creation failure
propagates out of save. -/
theorem c10_exit_saves (c : CacheState) (exc : Option String) (r1 r2 r3 : FsResult) :
    exit_handler c exc r1 r2 r3 = save c r1 r2 r3
  ∧ save c FsResult.ok r2 r3 =
      SaveResult.done (written_msgs_for c r2) (written_vqd_for c r3)
        (msgs_save_warnings r2 ++ vqd_save_warnings r3)
  ∧ save c FsResult.ok FsResult.ok FsResult.ok =
      SaveResult.done (some (c.messages.map CachedMessage.to_dict))
        (some (c.vqd_hash.getD (""))) []
  ∧ (∀ e, save c (FsResult.err e) r2 r3 = SaveResult.raised e) := by
  refine ⟨rfl, ?_, rfl, fun e => rfl⟩
  cases r2 <;> cases r3 <;> rfl

theorem line_step_preserves_ok (parse : String → Option EventData)
    (st : LoopState) (line : String) (hst : last_action_ok st = true)
    (o : Option String) (st2 : LoopState)
    (h : line_step parse st line = LineResult.next o st2) :
    last_action_ok st2 = true := by
  unfold line_step at h
  split at h
  · cases h; exact hst
  · split at h
    · cases h; exact hst
    · rename_i data hp
      split at h
      · simp at h
      · rename_i hact
        split at h
        · rename_i m hm
          cases h
          simp only [last_action_ok]
          simp [hact]
        · rename_i hm
          cases h
          simp only [last_action_ok]
          simp [hact]

theorem run_stream_preserves_ok (parse : String → Option EventData)
    (lines : List String) (st : LoopState) (hst : last_action_ok st = true)
    (chunks : List Chunk) (st2 : LoopState)
    (h : run_stream parse st lines = (chunks, RunOut.ok st2)) :
    last_action_ok st2 = true := by
  induction lines generalizing st chunks with
  | nil =>
      unfold run_stream at h
      cases h
      exact hst
  | cons line rest ih =>
      unfold run_stream at h
      cases hls : line_step parse st line with
      | exit code s t =>
          rw [hls] at h
          simp at h
      | next o st3 =>
          rw [hls] at h
          have hok3 := line_step_preserves_ok parse st line hst o st3 hls
          cases o with
          | none => exact ih st3 hok3 chunks h
          | some m =>
              have h2 : (run_stream parse st3 rest).2 = RunOut.ok st2 := by
                have := congrArg Prod.snd h
                simpa using this
              apply ih st3 hok3 (run_stream parse st3 rest).1
              rw [← h2]

/-- C2 counterexample: a stream that ends without error, whose accumulated
text is the single message Hi.  The committed turn carries role user, not
assistant, and its content is the accumulated text behind an added marker,
refuting the claim that the accumulated text becomes, unchanged, the content
of an assistant turn. -/
theorem c2_commit_counterexample :
    get_response none ("q") parse_fixture [("data: s1")] 0 cache0 =
      RespResult.ok [Chunk.success ("Hi")]
        (CacheState.mk [⟨0, ⟨"user", "q"⟩⟩, ⟨0, ⟨"user", "your answer: Hi"⟩⟩] 24 10 none)
  ∧ (("your answer: Hi" : String) ≠ "Hi")
  ∧ (("user" : String) ≠ "assistant") := by
  refine ⟨by decide, by decide, by decide⟩

/-- C2 amended: for every stream the loop runs to the end of (no error
action), get_response yields exactly the success chunks of the run and, when
the accumulated text is nonempty, commits exactly one new turn after the
user turn, carrying role user and the marker text followed by the
accumulated reply; with an empty accumulator no reply turn is committed. -/
theorem c2_commit (prompt : Option String) (query : String)
    (parse : String → Option EventData) (lines : List String) (now : Int)
    (c : CacheState) (chunks : List Chunk) (st : LoopState)
    (h : run_stream parse init_loop_state lines = (chunks, RunOut.ok st)) :
    get_response prompt query parse lines now c =
      RespResult.ok chunks
        (if st.complete_response = "" then
          c.add_message now { role := "user", content := prompt_content prompt query }
        else
          (c.add_message now
            { role := "user", content := prompt_content prompt query }).add_message now
            { role := "user", content := "your answer: " ++ st.complete_response }) := by
  have hok : last_action_ok st = true :=
    run_stream_preserves_ok parse lines init_loop_state rfl chunks st h
  by_cases hc : st.complete_response = ""
  · simp [get_response, h, hc]
  · simp [get_response, h, hc, hok]

/-- Witness for c2_commit on a two-chunk stream: both texts are shown as
chunks and the reply turn committed is role user with the marker in front
of the accumulated text. -/
theorem c2_commit_witness :
    get_response none ("hello") parse_fixture [("data: s1"), ("data: s2")] 5 cache0 =
      RespResult.ok [Chunk.success ("Hi"), Chunk.success (" there")]
        ((cache0.add_message 5 ⟨"user", "hello"⟩).add_message 5
          ⟨"user", "your answer: Hi there"⟩) := by
  have h := c2_commit none ("hello") parse_fixture [("data: s1"), ("data: s2")] 5 cache0
    [Chunk.success ("Hi"), Chunk.success (" there")]
    (LoopState.mk 2 ("Hi there") ("Hi there") (some ev_there)) (by decide)
  rw [h]
  decide

/-- C4 counterexample: on the spec's error event the loop surfaces no chunk
at all (the chunk list is empty, in particular it holds no Error chunk) and
tears the process down with exit code 1, refuting that an Error chunk is
surfaced to the caller as a chunk rather than an exceptional exit. -/
theorem c4_error_counterexample :
    (run_stream parse_fixture init_loop_state [("data: e1")]).1 = []
  ∧ (run_stream parse_fixture init_loop_state [("data: e1")]).2 =
      RunOut.exited 1 (some 429) (some ("rate_limited")) := by
  refine ⟨by decide, by decide⟩

/-- C4 amended: a decoded error action stops the loop at once — whatever
lines follow are never consumed, no chunk is emitted for it, and the process
exits with code 1 after printing the status and error-type fields; at the
orchestrator level an exited run leaves the cache with only the user turn,
so no reply turn is committed for that exchange. -/
theorem c4_error_terminates :
    (∀ (parse : String → Option EventData) (st : LoopState) (line : String)
        (rest : List String) (d : EventData),
        line ≠ "" → parse (strip_data line) = some d → d.action = some ("error") →
        run_stream parse st (line :: rest) = ([], RunOut.exited 1 d.status d.err_type))
  ∧ (∀ (prompt : Option String) (query : String) (parse : String → Option EventData)
        (lines : List String) (now : Int) (c : CacheState) (chunks : List Chunk)
        (code : Nat) (s : Option Int) (t : Option String),
        run_stream parse init_loop_state lines = (chunks, RunOut.exited code s t) →
        get_response prompt query parse lines now c =
          RespResult.exited code s t
            (c.add_message now { role := "user", content := prompt_content prompt query })) := by
  constructor
  · intro parse st line rest d hl hp ha
    have hstep : line_step parse st line = LineResult.exit 1 d.status d.err_type := by
      simp [line_step, hl, hp, ha]
    simp [run_stream, hstep]
  · intro prompt query parse lines now c chunks code s t h
    simp [get_response, h]

/-- Witness for c4_error_terminates: the spec's rate-limit event followed by
a success line; the success line is never consumed and get_response ends in
the exit, the cache holding the user turn only. -/
theorem c4_error_terminates_witness :
    run_stream parse_fixture init_loop_state [("data: e1"), ("data: s1")] =
      ([], RunOut.exited 1 (some 429) (some ("rate_limited")))
  ∧ get_response none ("q") parse_fixture [("data: e1"), ("data: s1")] 0 cache0 =
      RespResult.exited 1 (some 429) (some ("rate_limited"))
        (cache0.add_message 0 ⟨"user", "q"⟩) := by
  have h1 := c4_error_terminates.1 parse_fixture init_loop_state ("data: e1")
    [("data: s1")] ev_err (by decide) (by decide) (by decide)
  have h2 := c4_error_terminates.2 none ("q") parse_fixture
    [("data: e1"), ("data: s1")] 0 cache0 [] 1 (some 429) (some ("rate_limited")) h1
  exact ⟨h1, h2⟩

/-- C5 counterexample: an event whose action is proceeding, not success, yet
carries a message: the loop emits a chunk for it and appends its text to the
accumulators; and an event with a present but empty message is also counted
as a chunk.  Both refute the claimed condition (action success and nonempty
message). -/
theorem c5_message_counterexample :
    line_step parse_fixture init_loop_state ("data: a1") =
      LineResult.next (some ("x")) (LoopState.mk 1 ("x") ("x") (some ev_odd))
  ∧ ev_odd.action ≠ some ("success")
  ∧ line_step parse_fixture init_loop_state ("data: m0") =
      LineResult.next (some ("")) (LoopState.mk 1 ("") ("") (some ev_empty)) := by
  refine ⟨by decide, by decide, by decide⟩

/-- C5 amended: for a parsed event whose action is not error, a chunk is
emitted and the message text appended to both accumulators exactly when a
message field is present — whatever the action value is, and also when the
message is empty (the accumulators then gain nothing but the chunk is still
counted); an event with no message field leaves everything but the data
binding unchanged. -/
theorem c5_message_step (parse : String → Option EventData) (st : LoopState)
    (line : String) (d : EventData) (hl : line ≠ "")
    (hp : parse (strip_data line) = some d) (he : ¬ d.action = some ("error")) :
    line_step parse st line =
      match d.message with
      | some m => LineResult.next (some m)
          { chunk_count := st.chunk_count + 1
            current_response := st.current_response ++ m
            complete_response := st.complete_response ++ m
            last_data := some d }
      | none => LineResult.next none { st with last_data := some d } := by
  cases hdm : d.message with
  | some m => simp [line_step, hl, hp, he, hdm]
  | none => simp [line_step, hl, hp, he, hdm]

/-- Witness for c5_message_step: the success event with an empty message is
still counted as a chunk and the accumulators stay empty. -/
theorem c5_message_step_witness :
    line_step parse_fixture init_loop_state ("data: m0") =
      LineResult.next (some ("")) (LoopState.mk 1 ("") ("") (some ev_empty)) := by
  have h := c5_message_step parse_fixture init_loop_state ("data: m0") ev_empty
    (by decide) (by decide) (by decide)
  rw [h]
  decide

/-- C8: a blank line, or a line whose payload after stripping the marker is
not valid JSON, is skipped: no chunk, no failure, the loop state unchanged,
and the run continues with the rest of the lines. -/
theorem c8_skip (parse : String → Option EventData) (st : LoopState) (line : String) :
    (line = "" → line_step parse st line = LineResult.next none st)
  ∧ (line ≠ "" → parse (strip_data line) = none →
      line_step parse st line = LineResult.next none st)
  ∧ (∀ rest, line_step parse st line = LineResult.next none st →
      run_stream parse st (line :: rest) = run_stream parse st rest) := by
  refine ⟨?_, ?_, ?_⟩
  · intro hl
    simp [line_step, hl]
  · intro hl hp
    simp [line_step, hl, hp]
  · intro rest hstep
    simp [run_stream, hstep]

/-- Witness for c8_skip: a malformed payload and a blank line are both
skipped with the state unchanged, and the malformed line drops out of the
run entirely. -/
theorem c8_skip_witness :
    line_step parse_fixture init_loop_state ("data: not json") =
      LineResult.next none init_loop_state
  ∧ line_step parse_fixture init_loop_state ("") = LineResult.next none init_loop_state
  ∧ run_stream parse_fixture init_loop_state [("data: not json"), ("data: s1")] =
      run_stream parse_fixture init_loop_state [("data: s1")] := by
  have h := c8_skip parse_fixture init_loop_state ("data: not json")
  have hb := c8_skip parse_fixture init_loop_state ("")
  have h1 := h.2.1 (by decide) (by decide)
  exact ⟨h1, hb.1 rfl, h.2.2 [("data: s1")] h1⟩

/-- C3 counterexample: with concrete challenge material M1 (token and proof
header values as returned by get_vqd), the chat request carries the literal
string initial in the proof header — not the proof component of M1 — so a
chat request does not carry a proof derived from the immediately preceding
material. -/
theorem c3_proof_header_counterexample :
    hfind (chat_headers ("token-M1", "proof-M1")) ("x-vqd-hash-1") = some ("initial")
  ∧ hfind (chat_headers ("token-M1", "proof-M1")) ("x-vqd-hash-1") ≠ some ("proof-M1") := by
  refine ⟨by decide, by decide⟩

/-- C3 amended: every chat request carries the constant placeholder initial
in the x-vqd-hash-1 proof header, independently of whatever challenge
material was last observed; only the gating token component of the material
is sent, in x-vqd-4.  Freshness of the hash material therefore never
influences what is presented. -/
theorem c3_proof_header_constant (vqd : String × String) :
    hfind (chat_headers vqd) ("x-vqd-hash-1") = some ("initial")
  ∧ hfind (chat_headers vqd) ("x-vqd-4") = some vqd.1 := by
  exact ⟨rfl, rfl⟩

end Hey
